import Mathlib

/-!
Shallow embedding of the tile cache and build scheduler of the tangram
repository (source file src/src/tile/tile_manager.js).

State that in the JavaScript source lives on the TileManager object
(tiles, pyramid, queued and visible coordinates, build tracking,
collision bookkeeping) is carried here in an explicit record `TMState`;
the methods become pure functions `TMState -> TMState`.  JavaScript
objects used as string-keyed maps become association lists kept in
insertion order.  Side effects that leave the manager (aborting a build
on the worker side, destroying a tile and its GPU resources, redraw
requests, the build-done signal) are recorded in explicit event-log
fields of the state, so that theorems can talk about them.

Collaborator code that the manager calls but that is not among the
source files under inspection (tile.js, tile_id.js, tile_pyramid.js,
geo.js, the view and the scene objects, the worker pool) is modelled
from the specification; each such definition carries a doc comment
beginning with "Modelled from the spec".
-/

/-- A renderable sub-object ("mesh") of a tile; the manager only ever
reads its creation timestamp (for the collision fingerprint). -/
structure Mesh where
  created_at : Nat
deriving DecidableEq

/-- An integer tile coordinate (x, y, z). -/
structure Coord where
  x : Int
  y : Int
  z : Nat
deriving DecidableEq

/-- Modelled from the spec (tile_id.js is not under src): the stable
string key derived from a coordinate, composed from its x, y and z. -/
def coordKey (c : Coord) : String :=
  toString c.x ++ "/" ++ toString c.y ++ "/" ++ toString c.z

namespace TileID

/-- Modelled from the spec (tile_id.js is not under src): `coords` is a
descendant of `parent` when it sits at a strictly finer zoom and scaling
its x and y down to the zoom of `parent` (floor division by the zoom
difference power of two) lands exactly on `parent`. -/
def isDescendant (child parent : Coord) : Bool :=
  decide (parent.z < child.z) &&
    (Int.fdiv child.x (2 ^ (child.z - parent.z)) == parent.x) &&
    (Int.fdiv child.y (2 ^ (child.z - parent.z)) == parent.y)

end TileID

namespace Geo

/-- Modelled from the spec (geo.js is not under src): half the
Web-Mercator world circumference in meters. -/
def half_circumference_meters : ℚ := 20037508342789244 / 1000000000

/-- Modelled from the spec: the full world circumference in meters. -/
def circumference_meters : ℚ := 2 * half_circumference_meters

/-- Modelled from the spec: the world-metric span of one tile at zoom
`z`. -/
def metersPerTile (z : Nat) : ℚ := circumference_meters / 2 ^ z

/-- Modelled from the spec: the world-metric position of the origin
(upper-left corner) of tile `c`. -/
def metersForTile (c : Coord) : ℚ × ℚ :=
  ((c.x : ℚ) * metersPerTile c.z - half_circumference_meters,
   -((c.y : ℚ) * metersPerTile c.z - half_circumference_meters))

end Geo

/-- A tile.  Modelled from the spec (tile.js is not under src): key,
coordinate, owning source, style zoom, pinned worker, monotonically
increasing id, configuration generation stamp, build order stamp, the
state flags, the proxy relation, the built meshes and the raw mesh data
delivered by the worker (represented by the per-style list of
mesh-creation timestamps). -/
structure Tile where
  key : String
  coords : Coord
  source_id : Nat
  style_z : Nat
  worker : Nat
  id : Nat
  generation : Nat
  build_id : Nat
  visible : Bool
  built : Bool
  loaded : Bool
  labeled : Bool
  valid : Bool
  proxy_for : Option String
  meshes : List (String × List Mesh)
  mesh_data : List (String × List Nat)
deriving DecidableEq

namespace Tile

/-- The build-relevant view of a tile: every field except the two that
the per-frame reconciliation recomputes on every pass (`visible` and
`proxy_for`), which are normalized away. -/
def buildView (t : Tile) : Tile :=
  { t with visible := false, proxy_for := none }

/-- Modelled from the spec (tile.js is not under src): merging an
incremental build result into the cached tile copies the content the
worker produced (id, generation stamp, load flag and mesh data) onto
the cached tile, keeping its cache-local state. -/
def merge (cached result : Tile) : Tile :=
  { cached with
    id := result.id
    generation := result.generation
    loaded := result.loaded
    mesh_data := result.mesh_data }

/-- Modelled from the spec (tile.js is not under src): the
mesh-construction step materializes the meshes of a tile from the raw
mesh data, one mesh per recorded creation timestamp.  The style table is
consumed by the real implementation but does not influence anything the
manager later reads. -/
def buildMeshes (t : Tile) (_styles : List String) : Tile :=
  { t with meshes := t.mesh_data.map (fun p => (p.1, p.2.map (fun n => { created_at := n }))) }

end Tile

/-- Modelled from the spec (the data-source collaborator is not under
src): a data source exposes an identifier, whether it is a tiled source,
whether it produces geometry tiles, and a coverage test. -/
structure Source where
  id : Nat
  tiled : Bool
  builds_geometry_tiles : Bool
  includes : Coord → Nat → Bool

namespace TileID

/-- Modelled from the spec (tile_id.js is not under src): the normalized
composite tile key f(coordinate, data-source, style-zoom). -/
def normalizedKey (c : Coord) (src : Source) (tz : Nat) : Option String :=
  some (coordKey c ++ "-" ++ toString src.id ++ "-" ++ toString tz)

end TileID

/-- Modelled from the spec (scene.js is not under src): the in-progress
full-scene rebuild marker; `initial` tells whether it is the initial
scene build. -/
structure SceneBuilding where
  initial : Bool
deriving DecidableEq

/-- Modelled from the spec (scene.js is not under src): the slice of the
scene collaborator the manager reads — configuration generation, the
rebuild marker, the active data sources, the worker pool size and the
style table. -/
structure Scene where
  generation : Nat
  building : Option SceneBuilding
  sources : List Source
  workers : Nat
  styles : List String

/-- Modelled from the spec (the view collaborator is not under src): the
slice of the view the manager reads — continuous zoom, integer tile
zoom, view center in world meters, the zoom of the center tile, the
zoom-transition direction, the style-zoom function and the tile
retention predicate backing pruneTilesForView. -/
structure View where
  zoom : ℚ
  tile_zoom : Nat
  center_meters : ℚ × ℚ
  center_tile_z : Nat
  zoom_direction : Int
  base_zoom : Nat → Nat
  retain : Tile → Bool

/-- The collision-debounce bookkeeping of the manager (`this.collision`
in the source): the last recorded fingerprint (zoom bucket, ordered tile
key list, mesh timestamp signature — the JSON strings of the source are
represented by the structured values they serialize, on which string
equality coincides with structural equality), the zoom step count and
whether a collision task is in flight. -/
structure Collision where
  mesh_set : Option (List (List (List Nat)))
  tile_keys : Option (List String)
  zoom : Option ℚ
  zoom_steps : ℚ
  task : Bool

/-- The whole mutable state of the TileManager, together with event-log
fields (`aborted`, `destroyed`, `redraws`, `build_done_signals`)
recording the side effects that leave the manager. -/
structure TMState where
  scene : Scene
  view : View
  tiles : List (String × Tile)
  pyramid : List String
  visible_coords : List Coord
  queued_coords : List Coord
  building_tiles : Option (List String)
  renderable_tiles : List Tile
  active_styles : List String
  collision : Collision
  next_tile_id : Nat
  next_build_id : Nat
  aborted : List (String × Nat)
  destroyed : List String
  redraws : Nat
  build_done_signals : Nat

/-- Association-list lookup on the tile map (JavaScript
`this.tiles[key]`). -/
def lookupT : List (String × Tile) → String → Option Tile
  | [], _ => none
  | (k, v) :: r, q => if q = k then some v else lookupT r q

/-- Association-list store (JavaScript `this.tiles[key] = tile`): an
existing slot keeps its position, a new key is appended. -/
def assocSet : List (String × Tile) → String → Tile → List (String × Tile)
  | [], k, v => [(k, v)]
  | (k2, v2) :: r, k, v => if k = k2 then (k2, v) :: r else (k2, v2) :: assocSet r k v

/-- Association-list removal (JavaScript `delete this.tiles[key]`). -/
def eraseKey : List (String × Tile) → String → List (String × Tile)
  | [], _ => []
  | (k2, v2) :: r, k => if k2 = k then eraseKey r k else (k2, v2) :: eraseKey r k

/-- Apply a (key-aware) function to every stored tile, in place. -/
def mapVals (g : String → Tile → Tile) (l : List (String × Tile)) : List (String × Tile) :=
  l.map (fun p => (p.1, g p.1 p.2))

/-- Add a key to a key set if it is not already present. -/
def insertKey (l : List String) (k : String) : List String :=
  if l.contains k then l else k :: l

namespace TileManager

/-- `scene.requestRedraw()`: log a (deferred) redraw request. -/
def requestRedraw (s : TMState) : TMState :=
  { s with redraws := s.redraws + 1 }

/-- `Tile.abortBuild(tile)` — modelled from the spec (tile.js is not
under src): release the build-side resources of a result; logged as an
abort event tagged with the key and id of the discarded result. -/
def abortBuild (s : TMState) (t : Tile) : TMState :=
  { s with aborted := s.aborted ++ [(t.key, t.id)] }

/-- `keepTile(tile)`: insert the tile into the cache and the pyramid. -/
def keepTile (s : TMState) (t : Tile) : TMState :=
  { s with tiles := assocSet s.tiles t.key t, pyramid := insertKey s.pyramid t.key }

/-- `hasTile(key)`. -/
def hasTile (s : TMState) (key : String) : Bool :=
  (lookupT s.tiles key).isSome

/-- `checkBuildQueue()`: when no build is outstanding, reset the tracker
to null and fire the one-shot build-done signal toward the scene. -/
def checkBuildQueue (s : TMState) : TMState :=
  match s.building_tiles with
  | none => { s with building_tiles := none, build_done_signals := s.build_done_signals + 1 }
  | some l =>
    if l.isEmpty then
      { s with building_tiles := none, build_done_signals := s.build_done_signals + 1 }
    else s

/-- `tileBuildStart(key)`: record an outstanding build for the key. -/
def tileBuildStart (s : TMState) (key : String) : TMState :=
  { s with building_tiles := some (insertKey (s.building_tiles.getD []) key) }

/-- `tileBuildStop(key)`: clear the tracker entry for the key and check
whether the build queue drained. -/
def tileBuildStop (s : TMState) (key : String) : TMState :=
  match s.building_tiles with
  | none => s
  | some l =>
    checkBuildQueue { s with building_tiles := some (l.filter (fun x => x != key)) }

/-- `forgetTile(key)`: remove the tile from the pyramid (when cached)
and from the cache, and clear its build tracking. -/
def forgetTile (s : TMState) (key : String) : TMState :=
  let s1 :=
    match lookupT s.tiles key with
    | some tile => { s with pyramid := s.pyramid.filter (fun x => x != tile.key) }
    | none => s
  let s2 := { s1 with tiles := eraseKey s1.tiles key }
  tileBuildStop s2 key

/-- `removeTile(key)`: destroy the tile (releasing its external
resources, logged in `destroyed`), forget it and request a redraw.  The
source dereferences `tile.key` after a null-guarded destroy, so a key
that is not cached raises a TypeError: modelled as `none`. -/
def removeTile (s : TMState) (key : String) : Option TMState :=
  match lookupT s.tiles key with
  | none => none
  | some tile =>
    let s := { s with destroyed := s.destroyed ++ [tile.key] }
    let s := forgetTile s tile.key
    some (requestRedraw s)

/-- One removal step of `removeTiles`: remove the key, falling back to
the unchanged state in the (there unreachable) error case of
`removeTile`. -/
def removeTileTotal (s : TMState) (k : String) : TMState :=
  match removeTile s k with
  | some s2 => s2
  | none => s

/-- `removeTiles(filter)`: collect the keys of the tiles matching the
filter, then remove them one by one.  Every collected key is cached when
its turn comes, so the error branch of `removeTile` never fires here. -/
def removeTiles (s : TMState) (filt : Tile → Bool) : TMState :=
  ((s.tiles.filter (fun p => filt p.2)).map Prod.fst).foldl removeTileTotal s

/-- `updateVisibility(tile)`: visible exactly when the style zoom of the
tile equals the view tile zoom and its coordinate either is in the
visible set or is a descendant of a member of the visible set. -/
def updateVisibility (vc : List Coord) (view : View) (t : Tile) : Tile :=
  { t with visible :=
      decide (t.style_z = view.tile_zoom) &&
        (vc.any (fun c => coordKey c == coordKey t.coords) ||
         vc.any (fun c => TileID.isDescendant t.coords c)) }

/-- The per-tile visibility pass of `updateTileStates` (the
`forEachTile(tile => this.updateVisibility(tile))` loop). -/
def visPass (s : TMState) : TMState :=
  { s with tiles := mapVals (fun _ t => updateVisibility s.visible_coords s.view t) s.tiles }

/-- `updateRenderableTiles()`: the renderable list is the cached tiles
with `visible && loaded`, in cache insertion order. -/
def updateRenderableTiles (s : TMState) : TMState :=
  { s with renderable_tiles := (s.tiles.map Prod.snd).filter (fun t => t.visible && t.loaded) }

/-- `updateActiveStyles()`: the union (first-occurrence order) of the
style names of the meshes of the renderable tiles. -/
def updateActiveStyles (s : TMState) : TMState :=
  { s with active_styles := ((s.renderable_tiles.map (fun t => t.meshes.map Prod.fst)).flatten).eraseDups }

/-- `roundPrecision(x, d)`: round down to increments of `1/d`.  The
source additionally renders the result with `toFixed(2)`; for the only
divisor used (`zoom_steps = 3`) that rendering is injective on the
produced values, so comparing the rationals coincides with comparing the
strings. -/
def roundPrecision (x d : ℚ) : ℚ := (⌊x * d⌋ : ℚ) / d

/-- `meshSetString(tiles)`: the per-tile, per-style list of
mesh-creation timestamps (the structured value whose JSON rendering the
source compares). -/
def meshSetSig (ts : List Tile) : List (List (List Nat)) :=
  ts.map (fun t => t.meshes.map (fun p => p.2.map (fun m => m.created_at)))

/-- The guard of `updateLabels`: skip while a full-scene rebuild that is
not the initial build is in progress
(`this.scene.building && !this.scene.building.initial`). -/
def labelSkipGuard (s : TMState) : Bool :=
  match s.scene.building with
  | some b => !b.initial
  | none => false

/-- The tile list `updateLabels` feeds to the collision pass: the
renderable tiles filtered to valid and built ones, sorted by build
order. -/
def labelTiles (s : TMState) : List Tile :=
  ((s.renderable_tiles.filter (fun t => t.valid)).filter (fun t => t.built)).insertionSort
    (fun a b => a.build_id ≤ b.build_id)

/-- The state after `updateLabels` records the new fingerprint and
starts a collision task: the collision bookkeeping holds the fingerprint
of `ts` and the in-flight marker, everything else is untouched. -/
def scheduleCollision (s : TMState) (ts : List Tile) : TMState :=
  { s with collision :=
      { s.collision with
        zoom := some (roundPrecision s.view.zoom s.collision.zoom_steps)
        tile_keys := some (ts.map (fun t => t.key))
        mesh_set := some (meshSetSig ts)
        task := true } }

/-- `updateLabels()`: the label-collision debounce.  Returns the new
state together with whether a new collision task was scheduled.  The
branches mirror the source: skip during a non-initial scene rebuild,
skip when no valid built renderable tile exists, skip when the
fingerprint (zoom bucket, tile key list, mesh set) is unchanged, start a
task only when none is in flight (recording the new fingerprint),
otherwise leave the in-flight task to carry on. -/
def updateLabels (s : TMState) : TMState × Bool :=
  if labelSkipGuard s then (s, false)
  else if labelTiles s = [] then (s, false)
  else if s.collision.zoom = some (roundPrecision s.view.zoom s.collision.zoom_steps) ∧
          s.collision.tile_keys = some ((labelTiles s).map (fun t => t.key)) ∧
          s.collision.mesh_set = some (meshSetSig (labelTiles s)) then (s, false)
  else if s.collision.task = false then (scheduleCollision s (labelTiles s), true)
  else (s, false)

/-- Modelled from the spec (tile_pyramid.js is not under src): the
nearest cached ancestor of a tile — among the indexed cached tiles of
the same source at a strictly coarser zoom that cover the tile, one of
maximal zoom; returns its key. -/
def getAncestorKey (s : TMState) (t : Tile) : Option String :=
  let cands := s.tiles.filter (fun p =>
    s.pyramid.contains p.1 && (p.2.source_id == t.source_id) &&
      TileID.isDescendant t.coords p.2.coords)
  (cands.foldl (fun best p =>
    match best with
    | none => some p
    | some q => if q.2.coords.z < p.2.coords.z then some p else some q) none).map Prod.fst

/-- Modelled from the spec (tile_pyramid.js is not under src): the keys
of all indexed cached descendants (finer zoom, same source) of a
tile. -/
def getDescendantKeys (s : TMState) (t : Tile) : List String :=
  (s.tiles.filter (fun p =>
    s.pyramid.contains p.1 && (p.2.source_id == t.source_id) &&
      TileID.isDescendant p.2.coords t.coords)).map Prod.fst

/-- `tile.setProxyFor(...)` applied to the cached tile stored under a
key: record the proxy relation centrally on that tile. -/
def setProxyForKey (s : TMState) (k : String) (v : Option String) : TMState :=
  { s with tiles := mapVals (fun k2 t => if k2 = k then { t with proxy_for := v } else t) s.tiles }

/-- `updateProxyTiles()`: during a zoom transition, clear all proxy
relations, then let every visible unlabeled tile be stood in for by its
nearest cached ancestor (zooming in) or by all its cached descendants
(zooming out); when no relation was established the transition state
resets to neutral.  This is the body of the `forEachTile` loop: the
accumulator carries the evolving state and the flag telling whether any
proxy relation was established. -/
def updateProxyStep (acc : TMState × Bool) (k : String) : TMState × Bool :=
  match lookupT acc.1.tiles k with
  | none => acc
  | some tile =>
    if acc.1.view.zoom_direction = 1 then
      if tile.visible && !tile.labeled then
        match getAncestorKey acc.1 tile with
        | some pk => (setProxyForKey acc.1 pk (some tile.key), true)
        | none => acc
      else acc
    else if acc.1.view.zoom_direction = -1 then
      if tile.visible && !tile.labeled then
        ((getDescendantKeys acc.1 tile).foldl
            (fun s2 dk => setProxyForKey s2 dk (some tile.key)) acc.1,
         acc.2 || !(getDescendantKeys acc.1 tile).isEmpty)
      else acc
    else acc

/-- The proxy-clearing pass at the top of `updateProxyTiles`
(`forEachTile(tile => tile.setProxyFor(null))`). -/
def clearProxies (s : TMState) : TMState :=
  { s with tiles := mapVals (fun _ t => { t with proxy_for := none }) s.tiles }

/-- The state and proxy flag after the proxy-assignment loop of
`updateProxyTiles` has run over every cached tile. -/
def proxyFoldResult (s : TMState) : TMState × Bool :=
  ((clearProxies s).tiles.map Prod.fst).foldl updateProxyStep (clearProxies s, false)

def updateProxyTiles (s : TMState) : TMState :=
  if s.view.zoom_direction = 0 then s
  else if (proxyFoldResult s).2 then (proxyFoldResult s).1
  else { (proxyFoldResult s).1 with
         view := { (proxyFoldResult s).1.view with zoom_direction := 0 } }

/-- `view.pruneTilesForView()` — modelled from the spec (the view
collaborator is not under src): evict the cached tiles outside the
retention window of the view, through the generic filtered removal. -/
def pruneTilesForView (s : TMState) : TMState :=
  removeTiles s (fun t => !(s.view.retain t))

/-- `getWorkerForTile(coords, source)`: tiled sources are pinned by
coordinate hash, non-tiled sources by source id, modulo the worker pool
size. -/
def getWorkerForTile (s : TMState) (c : Coord) (src : Source) : Nat :=
  if src.tiled then (c.x + c.y + (c.z : Int)).natAbs % s.scene.workers
  else src.id % s.scene.workers

/-- `buildTile(tile)`: track the build, recompute the visibility of the
tile, and start the asynchronous build, which stamps the tile with the
current configuration generation and the next build order stamp. -/
def buildTile (s : TMState) (t : Tile) : TMState :=
  let s := tileBuildStart s t.key
  let tv := updateVisibility s.visible_coords s.view t
  let tb := { tv with generation := s.scene.generation, build_id := s.next_build_id }
  { s with tiles := assocSet s.tiles t.key tb, next_build_id := s.next_build_id + 1 }

/-- The body of the source loop of `loadCoordinate`: skip sources that
do not build geometry tiles or whose coverage excludes the coordinate,
skip normalized keys already cached, otherwise construct a fresh tile
(consuming the monotone tile id counter), admit it and start its
build. -/
def loadCoordinateStep (c : Coord) (s2 : TMState) (src : Source) : TMState :=
  if !src.builds_geometry_tiles || !(src.includes c s2.view.tile_zoom) then s2
  else
    match TileID.normalizedKey c src s2.view.tile_zoom with
    | none => s2
    | some key =>
      if hasTile s2 key then s2
      else
        let tile : Tile :=
          { key := key
            coords := c
            source_id := src.id
            style_z := s2.view.base_zoom c.z
            worker := getWorkerForTile s2 c src
            id := s2.next_tile_id
            generation := 0
            build_id := 0
            visible := false
            built := false
            loaded := false
            labeled := false
            valid := true
            proxy_for := none
            meshes := []
            mesh_data := [] }
        let s3 := { s2 with next_tile_id := s2.next_tile_id + 1 }
        buildTile (keepTile s3 tile) tile

/-- `loadCoordinate(coords)`: skip stale queue entries (wrong zoom);
then run the source loop. -/
def loadCoordinate (s : TMState) (c : Coord) : TMState :=
  if c.z ≠ s.view.center_tile_z then s
  else s.scene.sources.foldl (loadCoordinateStep c) s

/-- The world-metric position of the center of tile `c` given the half
span `half`, and its Manhattan distance from `center` (the body of the
sort comparator of `loadQueuedCoordinates`). -/
def tileCenterDistAt (center : ℚ × ℚ) (half : ℚ) (c : Coord) : ℚ :=
  let m := Geo.metersForTile c
  |center.1 - (m.1 + half)| + |center.2 - (m.2 - half)|

/-- The Manhattan distance, in world meters, from the view center to the
center of tile `c` (half span taken at the zoom of `c` itself). -/
def tileCenterDist (center : ℚ × ℚ) (c : Coord) : ℚ :=
  tileCenterDistAt center (Geo.metersPerTile c.z / 2) c

/-- The sort comparator of `loadQueuedCoordinates`: `a` may precede `b`
when the distance of `a` is at most the distance of `b`.  Faithful to
the source, the half span of BOTH centers is taken at the zoom of `a`;
for coordinates at equal zoom this coincides with `tileCenterDist`. -/
def queueLe (center : ℚ × ℚ) (a b : Coord) : Prop :=
  tileCenterDistAt center (Geo.metersPerTile a.z / 2) a ≤
    tileCenterDistAt center (Geo.metersPerTile a.z / 2) b

instance (center : ℚ × ℚ) : DecidableRel (queueLe center) := fun a b => by
  unfold queueLe
  infer_instance

/-- Ordering of coordinates by their own center distance (the relation
the comparator realizes on a queue whose coordinates share one zoom). -/
def distLe (center : ℚ × ℚ) (a b : Coord) : Prop :=
  tileCenterDist center a ≤ tileCenterDist center b

instance (center : ℚ × ℚ) : DecidableRel (distLe center) := fun a b => by
  unfold distLe
  infer_instance

/-- The dispatch order of `loadQueuedCoordinates`: the queued
coordinates stably sorted by the comparator. -/
def sortedQueue (s : TMState) : List Coord :=
  s.queued_coords.insertionSort (queueLe s.view.center_meters)

/-- `loadQueuedCoordinates()`: sort the queued coordinates from the view
center, dispatch every one of them to `loadCoordinate` in that order,
then clear the queue. -/
def loadQueuedCoordinates (s : TMState) : TMState :=
  if s.queued_coords.isEmpty then s
  else
    { (sortedQueue s).foldl loadCoordinate { s with queued_coords := sortedQueue s } with
      queued_coords := [] }

/-- `updateTileStates()`: the fixed-order per-frame reconciliation —
visibility, queued loads, proxies, pruning, renderable list, active
styles, label debounce.  Returns the state together with whether a new
collision task was scheduled by the final step. -/
def updateTileStates (s : TMState) : TMState × Bool :=
  updateLabels (updateActiveStyles (updateRenderableTiles (pruneTilesForView
    (updateProxyTiles (loadQueuedCoordinates (visPass s))))))

/-- `buildTileStylesCompleted({ tile, progress })`: reconcile an
asynchronous build completion.  The branches mirror the source: key no
longer cached → abort; stale generation → abort; id older than the
cached id → abort and return early (skipping the final tracker stop);
otherwise merge, mark built when done, rebuild meshes, reconcile and
request a redraw.  Except in the superseded-id branch, a result whose
progress reports done finally clears the build tracker entry. -/
def buildTileStylesCompleted (s : TMState) (tile : Tile) (done : Bool) : TMState :=
  if lookupT s.tiles tile.key = none then
    let s1 := abortBuild s tile
    let s2 := (updateTileStates s1).1
    if done then tileBuildStop s2 tile.key else s2
  else if tile.generation ≠ s.scene.generation then
    let s1 := abortBuild s tile
    let s2 := (updateTileStates s1).1
    if done then tileBuildStop s2 tile.key else s2
  else
    match lookupT s.tiles tile.key with
    | some cached =>
      if tile.id < cached.id then
        abortBuild s tile
      else
        let merged := Tile.merge cached tile
        let merged := if done then { merged with built := true } else merged
        let merged := Tile.buildMeshes merged s.scene.styles
        let s1 := { s with tiles := assocSet s.tiles tile.key merged }
        let s2 := (updateTileStates s1).1
        let s3 := requestRedraw s2
        if done then tileBuildStop s3 merged.key else s3
    | none =>
      let t2 := if done then { tile with built := true } else tile
      let t2 := Tile.buildMeshes t2 s.scene.styles
      let s2 := (updateTileStates s).1
      let s3 := requestRedraw s2
      if done then tileBuildStop s3 t2.key else s3

/-- `buildTileError(tile)`: forget the tile and release the build-side
resources of the result. -/
def buildTileError (s : TMState) (tile : Tile) : TMState :=
  abortBuild (forgetTile s tile.key) tile

end TileManager

/-- The cache/index coupling invariant: a key is cached if and only if
it is indexed in the pyramid. -/
def cacheIndexCoupled (s : TMState) : Prop :=
  ∀ k : String, (lookupT s.tiles k).isSome ↔ k ∈ s.pyramid

/-- Cache well-formedness maintained by the source (tiles are always
stored under their own key): the tile cached under a key carries that
key. -/
def WFtiles (s : TMState) : Prop :=
  ∀ k t, lookupT s.tiles k = some t → t.key = k

/-- The build tracker holds no entry for the key (either the tracker is
reset or the key set lacks the key). -/
def trackerCleared (s : TMState) (k : String) : Bool :=
  match s.building_tiles with
  | none => true
  | some l => !(l.contains k)

/-! ## Concrete states used to instantiate the theorems -/

/-- A default view: zoom 14, centered at the origin, no zoom transition,
identity style-zoom, retain everything. -/
def defaultView : View :=
  { zoom := 14, tile_zoom := 14, center_meters := (0, 0), center_tile_z := 14,
    zoom_direction := 0, base_zoom := fun z => z, retain := fun _ => true }

/-- A default scene: generation 1, no rebuild in progress, no sources,
two workers, no styles. -/
def defaultScene : Scene :=
  { generation := 1, building := none, sources := [], workers := 2, styles := [] }

/-- The collision bookkeeping as the constructor initializes it. -/
def emptyCollision : Collision :=
  { mesh_set := none, tile_keys := none, zoom := none, zoom_steps := 3, task := false }

/-- A freshly constructed manager state: empty cache, empty pyramid,
nothing queued, nothing building. -/
def emptyTM : TMState :=
  { scene := defaultScene, view := defaultView, tiles := [], pyramid := [],
    visible_coords := [], queued_coords := [], building_tiles := none,
    renderable_tiles := [], active_styles := [], collision := emptyCollision,
    next_tile_id := 0, next_build_id := 0, aborted := [], destroyed := [],
    redraws := 0, build_done_signals := 0 }

/-- A plain tile under the given key at coordinate (0,0,14), id 0,
generation 1, all flags clear except `valid`. -/
def mkTile (key : String) : Tile :=
  { key := key, coords := { x := 0, y := 0, z := 14 }, source_id := 0, style_z := 14,
    worker := 0, id := 0, generation := 1, build_id := 0, visible := false,
    built := false, loaded := false, labeled := false, valid := true,
    proxy_for := none, meshes := [], mesh_data := [] }

/-- C1 witness data: a cached tile with id 5. -/
def c1cached : Tile := { mkTile "k" with id := 5, built := true, loaded := true }

/-- C1 witness data: the manager state caching `c1cached` under "k". -/
def c1s : TMState :=
  { emptyTM with tiles := [("k", c1cached)], pyramid := ["k"], building_tiles := some ["k"] }

/-- C1 witness data: a stale build result for "k" with the older id 3. -/
def c1r : Tile := { mkTile "k" with id := 3 }

/-- C2 witness data: a cached built tile with id 5 and one mesh. -/
def c2cached : Tile :=
  { mkTile "k" with id := 5, built := true, meshes := [("s1", [{ created_at := 7 }])] }

/-- C2 witness data: the manager state caching `c2cached` under "k". -/
def c2s : TMState :=
  { emptyTM with tiles := [("k", c2cached)], pyramid := ["k"], building_tiles := some ["k"] }

/-- C2 witness data: a build result for "k" stamped with the stale
generation 99. -/
def c2r : Tile := { mkTile "k" with id := 6, generation := 99 }

/-- C3 counterexample data: a cached tile with id 5. -/
def c3cached : Tile := { mkTile "k" with id := 5 }

/-- C3 counterexample data: the state caching `c3cached`, with an
outstanding build tracked for "k". -/
def c3s : TMState :=
  { emptyTM with tiles := [("k", c3cached)], pyramid := ["k"], building_tiles := some ["k"] }

/-- C3 counterexample data: a superseded build result with the older id
3 and a matching generation. -/
def c3r : Tile := { mkTile "k" with id := 3 }

/-- C3 witness data: a state caching a plain tile with a tracked
build. -/
def c3ws : TMState :=
  { emptyTM with tiles := [("k", mkTile "k")], pyramid := ["k"], building_tiles := some ["k"] }

/-- C3 witness data: a result for "k" with a stale generation. -/
def c3wr : Tile := { mkTile "k" with generation := 99 }

/-- C4 counterexample data: a valid, built, renderable tile. -/
def c4tile : Tile :=
  { mkTile "k" with
    visible := true, built := true, loaded := true, build_id := 1,
    meshes := [("s1", [{ created_at := 5 }])] }

/-- C4 counterexample data: a state whose scene is in its INITIAL
full-scene build, with one renderable built tile and no collision task
in flight. -/
def c4s : TMState :=
  { emptyTM with
    scene := { defaultScene with building := some { initial := true } },
    renderable_tiles := [c4tile] }

/-- C4 witness data: a state whose scene is in a NON-initial rebuild. -/
def c4ws : TMState :=
  { emptyTM with scene := { defaultScene with building := some { initial := false } } }

/-- C5 counterexample data: a tile that is visible and loaded but NOT
built (its geometry is still being assembled). -/
def c5tile : Tile := { mkTile "k" with visible := true, loaded := true, built := false }

/-- C5 counterexample data: the state caching only `c5tile`. -/
def c5s : TMState := { emptyTM with tiles := [("k", c5tile)] }

/-- C6 witness data: the coordinate whose tile center is at the view
center of the scenario (z=10, x=5, y=3). -/
def c6near : Coord := { x := 5, y := 3, z := 10 }

/-- C6 witness data: a far coordinate at the same zoom. -/
def c6far : Coord := { x := 100, y := 100, z := 10 }

/-- C6 witness data: a state with the two scenario coordinates
queued. -/
def c6s : TMState := { emptyTM with queued_coords := [c6far, c6near] }

/-- C7 witness data: a tile to admit. -/
def c7t : Tile := mkTile "a"

/-- C8 witness data: a valid built renderable tile. -/
def c8tile : Tile :=
  { mkTile "k" with
    visible := true, built := true, loaded := true,
    meshes := [("s1", [{ created_at := 2 }])] }

/-- C8 witness data: a state with one renderable built tile, fresh
collision bookkeeping and no task in flight, so the first updateLabels
call schedules a task. -/
def c8s : TMState := { emptyTM with renderable_tiles := [c8tile] }

/-- C9 data: a cached built tile holding a mesh (an external, GPU-side
resource). -/
def c9t : Tile :=
  { mkTile "k" with built := true, loaded := true, meshes := [("s1", [{ created_at := 3 }])] }

/-- C9 data: the state caching `c9t` with a tracked build and no redraw
requested yet. -/
def c9s : TMState :=
  { emptyTM with tiles := [("k", c9t)], pyramid := ["k"], building_tiles := some ["k"] }

/-- C9 data: the errored build result delivered by the worker. -/
def c9r : Tile := { mkTile "k" with id := 7 }

/-! ## Generic lemmas about the association-list and key-set helpers -/

theorem lookupT_mapVals : ∀ (l : List (String × Tile)) (g : String → Tile → Tile) (k : String),
    lookupT (mapVals g l) k = (lookupT l k).map (g k)
  | [], _, _ => rfl
  | (a, b) :: r, g, k => by
    by_cases h : k = a
    · subst h
      simp [mapVals, lookupT]
    · have ih := lookupT_mapVals r g k
      simp only [mapVals] at ih ⊢
      simp [lookupT, h, ih]

theorem lookupT_assocSet : ∀ (l : List (String × Tile)) (k : String) (v : Tile) (q : String),
    lookupT (assocSet l k v) q = if q = k then some v else lookupT l q
  | [], k, v, q => by simp [assocSet, lookupT]
  | (a, b) :: r, k, v, q => by
    by_cases hka : k = a
    · subst hka
      by_cases hq : q = k <;> simp [assocSet, lookupT, hq]
    · by_cases hq : q = a
      · subst hq
        simp [assocSet, lookupT, hka, Ne.symm hka]
      · simp [assocSet, lookupT, hka, hq, lookupT_assocSet r k v q]

theorem lookupT_eraseKey : ∀ (l : List (String × Tile)) (k : String) (q : String),
    lookupT (eraseKey l k) q = if q = k then none else lookupT l q
  | [], k, q => by simp [eraseKey, lookupT]
  | (a, b) :: r, k, q => by
    simp only [eraseKey]
    by_cases hak : a = k
    · rw [if_pos hak, lookupT_eraseKey r k q]
      by_cases hq : q = k
      · simp [hq]
      · have hqa : q ≠ a := fun hh => hq (hh.trans hak)
        simp [lookupT, hq, hqa]
    · rw [if_neg hak]
      by_cases hq : q = a
      · have hqk : q ≠ k := fun hh => hak ((hq.symm.trans hh))
        simp [lookupT, hq, hqk, hak]
      · simp [lookupT, hq, lookupT_eraseKey r k q]

theorem mem_insertKey (l : List String) (k q : String) :
    q ∈ insertKey l k ↔ q = k ∨ q ∈ l := by
  unfold insertKey
  by_cases h : l.contains k
  · have hm : k ∈ l := by simpa using h
    simp only [if_pos h]
    constructor
    · exact fun hq => Or.inr hq
    · rintro (rfl | hq)
      · exact hm
      · exact hq
  · have hm : ¬ k ∈ l := by simpa using h
    simp [hm, List.mem_cons]

theorem contains_filter_ne (l : List String) (k : String) :
    ((l.filter (fun x => x != k)).contains k) = false := by
  simp

theorem mem_filter_ne (l : List String) (k q : String) (hq : q ≠ k) :
    q ∈ l.filter (fun x => x != k) ↔ q ∈ l := by
  simp [List.mem_filter, hq]

theorem foldl_preserve {σ : Type _} {α : Type _} (P : σ → Prop) (f : σ → α → σ)
    (hf : ∀ s a, P s → P (f s a)) : ∀ (l : List α) (s : σ), P s → P (l.foldl f s)
  | [], _, h => h
  | a :: r, s, h => foldl_preserve P f hf r (f s a) (hf s a h)

/-! ## Frame lemmas: which state fields each operation leaves alone -/

theorem tileBuildStop_frame (s : TMState) (k : String) :
    (TileManager.tileBuildStop s k).tiles = s.tiles ∧
    (TileManager.tileBuildStop s k).pyramid = s.pyramid ∧
    (TileManager.tileBuildStop s k).aborted = s.aborted ∧
    (TileManager.tileBuildStop s k).redraws = s.redraws ∧
    (TileManager.tileBuildStop s k).destroyed = s.destroyed := by
  unfold TileManager.tileBuildStop TileManager.checkBuildQueue
  cases s.building_tiles with
  | none => exact ⟨rfl, rfl, rfl, rfl, rfl⟩
  | some l =>
    by_cases he : (l.filter (fun x => x != k)).isEmpty <;> simp [he]

theorem trackerCleared_tileBuildStop (s : TMState) (k : String) :
    trackerCleared (TileManager.tileBuildStop s k) k = true := by
  unfold TileManager.tileBuildStop TileManager.checkBuildQueue
  cases h : s.building_tiles with
  | none => simp [trackerCleared, h]
  | some l =>
    by_cases he : (l.filter (fun x => x != k)).isEmpty <;>
      simp [he, trackerCleared, contains_filter_ne]

theorem forgetTile_frame (s : TMState) (k : String) :
    (TileManager.forgetTile s k).tiles = eraseKey s.tiles k ∧
    (TileManager.forgetTile s k).aborted = s.aborted ∧
    (TileManager.forgetTile s k).redraws = s.redraws ∧
    (TileManager.forgetTile s k).destroyed = s.destroyed := by
  unfold TileManager.forgetTile
  cases h : lookupT s.tiles k with
  | none =>
    simp only [h]
    exact ⟨(tileBuildStop_frame _ _).1, (tileBuildStop_frame _ _).2.2.1,
      (tileBuildStop_frame _ _).2.2.2.1, (tileBuildStop_frame _ _).2.2.2.2⟩
  | some tile =>
    simp only [h]
    exact ⟨(tileBuildStop_frame _ _).1, (tileBuildStop_frame _ _).2.2.1,
      (tileBuildStop_frame _ _).2.2.2.1, (tileBuildStop_frame _ _).2.2.2.2⟩

theorem trackerCleared_forgetTile (s : TMState) (k : String) :
    trackerCleared (TileManager.forgetTile s k) k = true := by
  unfold TileManager.forgetTile
  cases h : lookupT s.tiles k <;> simp only [h] <;> exact trackerCleared_tileBuildStop _ _

theorem tiles_updateRenderableTiles (s : TMState) :
    (TileManager.updateRenderableTiles s).tiles = s.tiles := rfl

theorem tiles_updateActiveStyles (s : TMState) :
    (TileManager.updateActiveStyles s).tiles = s.tiles := rfl

theorem tiles_updateLabels (s : TMState) :
    (TileManager.updateLabels s).1.tiles = s.tiles := by
  unfold TileManager.updateLabels
  split
  · rfl
  · split
    · rfl
    · split
      · rfl
      · split
        · rfl
        · rfl

/-! ## Preservation of cached entries through the reconciliation chain -/

theorem lookupT_keepTile_ne (s : TMState) (t0 : Tile) (k : String) (hk : k ≠ t0.key) :
    lookupT (TileManager.keepTile s t0).tiles k = lookupT s.tiles k := by
  unfold TileManager.keepTile
  show lookupT (assocSet s.tiles t0.key t0) k = lookupT s.tiles k
  rw [lookupT_assocSet, if_neg hk]

theorem lookupT_buildTile_ne (s : TMState) (t0 : Tile) (k : String) (hk : k ≠ t0.key) :
    lookupT (TileManager.buildTile s t0).tiles k = lookupT s.tiles k := by
  unfold TileManager.buildTile TileManager.tileBuildStart
  show lookupT (assocSet s.tiles t0.key _) k = lookupT s.tiles k
  rw [lookupT_assocSet, if_neg hk]

theorem lookupT_loadCoordinateStep_pres (c : Coord) (s2 : TMState) (src : Source)
    (k : String) (t : Tile) (hP : lookupT s2.tiles k = some t) :
    lookupT (TileManager.loadCoordinateStep c s2 src).tiles k = some t := by
  unfold TileManager.loadCoordinateStep
  by_cases hg : (!src.builds_geometry_tiles || !(src.includes c s2.view.tile_zoom)) = true
  · rw [if_pos hg]; exact hP
  · rw [if_neg hg]
    cases hk : TileID.normalizedKey c src s2.view.tile_zoom with
    | none => exact hP
    | some key =>
      dsimp only
      by_cases hh : TileManager.hasTile s2 key = true
      · rw [if_pos hh]; exact hP
      · have hkk : k ≠ key := by
          intro he
          subst he
          unfold TileManager.hasTile at hh
          rw [hP] at hh
          simp at hh
        rw [if_neg hh]
        show lookupT (TileManager.buildTile (TileManager.keepTile _ _) _).tiles k = some t
        rw [lookupT_buildTile_ne _ _ _ hkk, lookupT_keepTile_ne _ _ _ hkk]
        exact hP

theorem lookupT_loadCoordinate_pres (s : TMState) (c : Coord) (k : String) (t : Tile)
    (h : lookupT s.tiles k = some t) :
    lookupT (TileManager.loadCoordinate s c).tiles k = some t := by
  unfold TileManager.loadCoordinate
  by_cases hz : c.z ≠ s.view.center_tile_z
  · rw [if_pos hz]; exact h
  · rw [if_neg hz]
    exact foldl_preserve (fun s2 => lookupT s2.tiles k = some t) _
      (fun s2 src hP => lookupT_loadCoordinateStep_pres c s2 src k t hP) _ s h

theorem lookupT_loadQueued_pres (s : TMState) (k : String) (t : Tile)
    (h : lookupT s.tiles k = some t) :
    lookupT (TileManager.loadQueuedCoordinates s).tiles k = some t := by
  unfold TileManager.loadQueuedCoordinates
  by_cases he : s.queued_coords.isEmpty = true
  · rw [if_pos he]; exact h
  · rw [if_neg he]
    exact foldl_preserve (fun s2 => lookupT s2.tiles k = some t) _
      (fun s2 c hP => lookupT_loadCoordinate_pres s2 c k t hP)
      (TileManager.sortedQueue s) { s with queued_coords := TileManager.sortedQueue s } h

/-- The refinement relation used for the proxy pass: every tile cached
in `base` is still cached in `cur` with an unchanged build view. -/
def SameB (base cur : TMState) : Prop :=
  ∀ k t, lookupT base.tiles k = some t →
    ∃ t2, lookupT cur.tiles k = some t2 ∧ t2.buildView = t.buildView

theorem SameB_refl (s : TMState) : SameB s s := fun _ t h => ⟨t, h, rfl⟩

theorem SameB_setProxyForKey {base cur : TMState} (h : SameB base cur) (pk : String)
    (v : Option String) : SameB base (TileManager.setProxyForKey cur pk v) := by
  intro k t hk
  obtain ⟨t2, h2, hb⟩ := h k t hk
  have hl : lookupT (TileManager.setProxyForKey cur pk v).tiles k
      = some (if k = pk then { t2 with proxy_for := v } else t2) := by
    have hm := lookupT_mapVals cur.tiles
      (fun k2 t3 => if k2 = pk then { t3 with proxy_for := v } else t3) k
    rw [h2] at hm
    exact hm
  refine ⟨_, hl, ?_⟩
  by_cases hkp : k = pk
  · rw [if_pos hkp]
    exact (show ({ t2 with proxy_for := v } : Tile).buildView = t2.buildView from rfl).trans hb
  · rw [if_neg hkp]; exact hb

theorem SameB_updateProxyStep {base : TMState} (acc : TMState × Bool) (k : String)
    (h : SameB base acc.1) : SameB base (TileManager.updateProxyStep acc k).1 := by
  unfold TileManager.updateProxyStep
  cases lookupT acc.1.tiles k with
  | none => exact h
  | some tile =>
    dsimp only
    by_cases h1 : acc.1.view.zoom_direction = 1
    · rw [if_pos h1]
      by_cases h2 : (tile.visible && !tile.labeled) = true
      · rw [if_pos h2]
        cases TileManager.getAncestorKey acc.1 tile with
        | some pk => exact SameB_setProxyForKey h pk _
        | none => exact h
      · rw [if_neg h2]; exact h
    · rw [if_neg h1]
      by_cases hm : acc.1.view.zoom_direction = -1
      · rw [if_pos hm]
        by_cases h2 : (tile.visible && !tile.labeled) = true
        · rw [if_pos h2]
          exact foldl_preserve (fun s2 => SameB base s2) _
            (fun s2 dk hP => SameB_setProxyForKey hP dk _) _ _ h
        · rw [if_neg h2]; exact h
      · rw [if_neg hm]; exact h

theorem SameB_clearProxies (s : TMState) : SameB s (TileManager.clearProxies s) := by
  intro k t hk
  have hm := lookupT_mapVals s.tiles (fun _ t3 => { t3 with proxy_for := none }) k
  rw [hk] at hm
  exact ⟨{ t with proxy_for := none }, hm, rfl⟩

theorem updateProxyTiles_SameB (s : TMState) : SameB s (TileManager.updateProxyTiles s) := by
  unfold TileManager.updateProxyTiles
  have hres : SameB s (TileManager.proxyFoldResult s).1 := by
    unfold TileManager.proxyFoldResult
    exact foldl_preserve (fun acc : TMState × Bool => SameB s acc.1) _
      (fun acc k hP => SameB_updateProxyStep acc k hP) _ _ (SameB_clearProxies s)
  by_cases hz : s.view.zoom_direction = 0
  · rw [if_pos hz]; exact SameB_refl s
  · rw [if_neg hz]
    by_cases hp : (TileManager.proxyFoldResult s).2 = true
    · rw [if_pos hp]; exact hres
    · rw [if_neg hp]
      intro k t hk
      obtain ⟨t2, h2, hb⟩ := hres k t hk
      exact ⟨t2, h2, hb⟩

theorem lookupT_removeTileTotal_sub (s : TMState) (kk : String) (k : String) (t2 : Tile)
    (h : lookupT (TileManager.removeTileTotal s kk).tiles k = some t2) :
    lookupT s.tiles k = some t2 := by
  unfold TileManager.removeTileTotal TileManager.removeTile at h
  cases hl : lookupT s.tiles kk with
  | none => rw [hl] at h; exact h
  | some tile =>
    rw [hl] at h
    have hf := (forgetTile_frame { s with destroyed := s.destroyed ++ [tile.key] } tile.key).1
    rw [show (TileManager.requestRedraw (TileManager.forgetTile
          { s with destroyed := s.destroyed ++ [tile.key] } tile.key)).tiles
        = (TileManager.forgetTile
          { s with destroyed := s.destroyed ++ [tile.key] } tile.key).tiles from rfl,
      hf, lookupT_eraseKey] at h
    by_cases hk : k = tile.key
    · rw [if_pos hk] at h; cases h
    · rw [if_neg hk] at h; exact h

theorem lookupT_removeTiles_sub (s : TMState) (filt : Tile → Bool) (k : String) (t2 : Tile)
    (h : lookupT (TileManager.removeTiles s filt).tiles k = some t2) :
    lookupT s.tiles k = some t2 := by
  unfold TileManager.removeTiles at h
  exact foldl_preserve
    (fun s2 => ∀ u, lookupT s2.tiles k = some u → lookupT s.tiles k = some u)
    TileManager.removeTileTotal
    (fun s2 kk hP u hu => hP u (lookupT_removeTileTotal_sub s2 kk k u hu))
    _ s (fun _ hu => hu) t2 h

theorem updateTileStates_buildView (s : TMState) (k : String) (t : Tile)
    (h : lookupT s.tiles k = some t) :
    ∀ t2, lookupT (TileManager.updateTileStates s).1.tiles k = some t2 →
      t2.buildView = t.buildView := by
  intro t2 h2
  unfold TileManager.updateTileStates at h2
  rw [tiles_updateLabels, tiles_updateActiveStyles, tiles_updateRenderableTiles] at h2
  have h3 : lookupT (TileManager.updateProxyTiles
      (TileManager.loadQueuedCoordinates (TileManager.visPass s))).tiles k = some t2 := by
    unfold TileManager.pruneTilesForView at h2
    exact lookupT_removeTiles_sub _ _ _ _ h2
  have hv : lookupT (TileManager.visPass s).tiles k
      = some (TileManager.updateVisibility s.visible_coords s.view t) := by
    have hm := lookupT_mapVals s.tiles
      (fun _ t3 => TileManager.updateVisibility s.visible_coords s.view t3) k
    rw [h] at hm
    exact hm
  have hl := lookupT_loadQueued_pres (TileManager.visPass s) k _ hv
  obtain ⟨t3, hp, hb⟩ :=
    updateProxyTiles_SameB (TileManager.loadQueuedCoordinates (TileManager.visPass s)) k _ hl
  rw [hp] at h3
  injection h3 with h3
  rw [← h3]
  exact hb.trans rfl

/-! ## Claim theorems -/

/-- C1: a build completion whose key is still cached and whose
generation matches the current scene generation, but whose id is smaller
than the id of the tile currently cached under that key, is discarded:
its build is aborted and the state is otherwise untouched — in
particular the cache (and with it the cached tile) is not mutated, the
result is not merged, the tile is not marked built and no meshes are
rebuilt. -/
theorem c1_identity_guard (s : TMState) (r : Tile) (p : Bool) (c : Tile)
    (hc : lookupT s.tiles r.key = some c)
    (hg : r.generation = s.scene.generation)
    (hid : r.id < c.id) :
    TileManager.buildTileStylesCompleted s r p = TileManager.abortBuild s r ∧
    (TileManager.abortBuild s r).tiles = s.tiles := by
  refine ⟨?_, rfl⟩
  unfold TileManager.buildTileStylesCompleted
  rw [hc]
  rw [if_neg (by simp : ¬((some c : Option Tile) = none))]
  rw [if_neg (fun hn => hn hg)]
  dsimp only
  rw [if_pos hid]

/-- C1 witness: the identity guard applied at a concrete state — a
cached tile with id 5 discards a matching-generation result with id
3. -/
theorem c1_identity_guard_witness :
    TileManager.buildTileStylesCompleted c1s c1r true = TileManager.abortBuild c1s c1r ∧
    (TileManager.abortBuild c1s c1r).tiles = c1s.tiles :=
  c1_identity_guard c1s c1r true c1cached (by decide) (by decide) (by decide)

/-- C4 counterexample: during an INITIAL full-scene build
(`scene.building.initial = true`) updateLabels is NOT a no-op — at this
concrete state it schedules a collision task (and records the in-flight
marker), contradicting the claim that it returns immediately.  The
guard in the source is `building && !building.initial`, which skips only
non-initial rebuilds. -/
theorem c4_initial_build_cex :
    c4s.scene.building = some { initial := true } ∧
    (TileManager.updateLabels c4s).2 = true ∧
    (TileManager.updateLabels c4s).1.collision.task = true := by decide

/-- C4 amended: updateLabels is a no-op exactly while a NON-initial
full-scene rebuild is in progress: when the scene carries a rebuild
marker whose `initial` flag is false, it returns immediately without
updating the stored collision fingerprint and without scheduling a
collision task. -/
theorem c4_label_noop_amended (s : TMState) (b : SceneBuilding)
    (hb : s.scene.building = some b) (hi : b.initial = false) :
    TileManager.updateLabels s = (s, false) := by
  have hg : TileManager.labelSkipGuard s = true := by
    unfold TileManager.labelSkipGuard
    rw [hb]
    simp [hi]
  unfold TileManager.updateLabels
  rw [if_pos hg]

/-- C4 witness: the amended no-op at a concrete state in a non-initial
rebuild. -/
theorem c4_label_noop_amended_witness :
    TileManager.updateLabels c4ws = (c4ws, false) :=
  c4_label_noop_amended c4ws { initial := false } (by decide) rfl

/-- C5 counterexample: a cached tile that is visible and loaded but not
yet built lands in the renderable list, so the renderable list is NOT
exactly the visible-and-built cached tiles — the source filters on
`visible && loaded`. -/
theorem c5_renderable_cex :
    (TileManager.updateRenderableTiles c5s).renderable_tiles = [c5tile] ∧
    c5tile.built = false ∧ c5tile.visible = true ∧ c5tile.loaded = true := by decide

/-- C5 amended: after updateRenderableTiles, the renderable list
contains exactly the cached tiles with `visible && loaded` (data
loaded); being built is not required. -/
theorem c5_renderable_amended (s : TMState) (t : Tile) :
    t ∈ (TileManager.updateRenderableTiles s).renderable_tiles ↔
      (t ∈ s.tiles.map Prod.snd ∧ t.visible = true ∧ t.loaded = true) := by
  unfold TileManager.updateRenderableTiles
  simp [List.mem_filter, and_assoc]

/-- C10: removeTile on a key that is not cached runs into the error
branch (the source dereferences `tile.key` on an undefined tile after
the null-guarded destroy), modelled as the `none` outcome; removeTile
succeeds exactly when the key is cached. -/
theorem c10_remove_absent_errs (s : TMState) (k : String) :
    TileManager.removeTile s k = none ↔ lookupT s.tiles k = none := by
  unfold TileManager.removeTile
  cases hl : lookupT s.tiles k with
  | none => simp
  | some tile => simp

/-- C3 counterexample: a done build completion that is discarded because
its id is superseded does NOT get its Build Tracker entry cleared — the
superseded-id branch returns before the final tileBuildStop, so the
entry for "k" is still tracked afterwards, even though the key is
cached, the generation matches, the id is older and progress reports
done. -/
theorem c3_tracker_cleared_cex :
    trackerCleared (TileManager.buildTileStylesCompleted c3s c3r true) "k" = false ∧
    lookupT c3s.tiles "k" = some c3cached ∧
    c3r.generation = c3s.scene.generation ∧
    c3r.id < c3cached.id := by decide

/-- C3 amended: for a build completion whose progress reports done, the
Build Tracker entry for the result key is cleared in the accepted
branch, in the key-no-longer-cached branch and in the stale-generation
branch — but NOT in the superseded-id branch, which returns early and
leaves the entry in place (the newer build for the same key is still
outstanding). -/
theorem c3_tracker_cleared_amended (s : TMState) (r : Tile)
    (h : lookupT s.tiles r.key = none ∨
         (∃ c, lookupT s.tiles r.key = some c ∧ r.generation ≠ s.scene.generation) ∨
         (∃ c, lookupT s.tiles r.key = some c ∧ c.key = r.key ∧
           r.generation = s.scene.generation ∧ ¬ r.id < c.id)) :
    trackerCleared (TileManager.buildTileStylesCompleted s r true) r.key = true := by
  unfold TileManager.buildTileStylesCompleted
  rcases h with h0 | ⟨c, hc, hg⟩ | ⟨c, hc, hck, hg, hid⟩
  · rw [if_pos h0, if_pos (rfl : true = true)]
    exact trackerCleared_tileBuildStop _ _
  · rw [if_neg (by rw [hc]; simp), if_pos hg, if_pos (rfl : true = true)]
    exact trackerCleared_tileBuildStop _ _
  · rw [if_neg (by rw [hc]; simp), if_neg (fun hn => hn hg), hc]
    dsimp only
    rw [if_neg hid, if_pos (rfl : true = true)]
    rw [← hck]
    exact trackerCleared_tileBuildStop _ _

/-- C3 witness: the amended clearing property at a concrete state, in
the stale-generation branch. -/
theorem c3_tracker_cleared_amended_witness :
    trackerCleared (TileManager.buildTileStylesCompleted c3ws c3wr true) "k" = true :=
  c3_tracker_cleared_amended c3ws c3wr
    (Or.inr (Or.inl ⟨mkTile "k", by decide, by decide⟩))

/-- Helper for C7 and C9: forgetTile preserves the cache/index coupling
(for a well-formed cache). -/
theorem coupled_forgetTile (s : TMState) (hc : cacheIndexCoupled s) (hwf : WFtiles s)
    (k : String) : cacheIndexCoupled (TileManager.forgetTile s k) := by
  intro q
  unfold TileManager.forgetTile
  cases hl : lookupT s.tiles k with
  | none =>
    dsimp only
    rw [(tileBuildStop_frame _ _).1, (tileBuildStop_frame _ _).2.1, lookupT_eraseKey]
    by_cases hq : q = k
    · have hk := hc k
      rw [hl] at hk
      simp only [Option.isSome_none, Bool.false_eq_true, false_iff] at hk
      simp [hq, hk]
    · simp only [if_neg hq]
      exact hc q
  | some tile =>
    dsimp only
    rw [(tileBuildStop_frame _ _).1, (tileBuildStop_frame _ _).2.1, lookupT_eraseKey,
      hwf k tile hl]
    by_cases hq : q = k
    · simp [hq]
    · rw [if_neg hq, mem_filter_ne s.pyramid k q hq]
      exact hc q

/-- C7: for a well-formed, coupled state, each of the admission and
eviction operations — keepTile, forgetTile and (when it succeeds)
removeTile — mutates the cache mapping and the spatial index together:
afterwards a key is cached if and only if it is indexed. -/
theorem c7_cache_index_coupled (s : TMState) (hc : cacheIndexCoupled s) (hwf : WFtiles s) :
    (∀ t, cacheIndexCoupled (TileManager.keepTile s t)) ∧
    (∀ k, cacheIndexCoupled (TileManager.forgetTile s k)) ∧
    (∀ k s2, TileManager.removeTile s k = some s2 → cacheIndexCoupled s2) := by
  refine ⟨?_, fun k => coupled_forgetTile s hc hwf k, ?_⟩
  · intro t q
    show (lookupT (assocSet s.tiles t.key t) q).isSome ↔ q ∈ insertKey s.pyramid t.key
    rw [lookupT_assocSet, mem_insertKey]
    by_cases hq : q = t.key
    · simp [hq]
    · simp only [if_neg hq, hq, false_or]
      exact hc q
  · intro k s2 hrem
    unfold TileManager.removeTile at hrem
    cases hl : lookupT s.tiles k with
    | none => rw [hl] at hrem; cases hrem
    | some tile =>
      rw [hl] at hrem
      dsimp only at hrem
      injection hrem with hrem
      subst hrem
      have hc2 : cacheIndexCoupled ({ s with destroyed := s.destroyed ++ [tile.key] }) := hc
      have hw2 : WFtiles ({ s with destroyed := s.destroyed ++ [tile.key] }) := hwf
      exact coupled_forgetTile _ hc2 hw2 tile.key

/-- C7 witness: the coupling preserved at a concrete state — admitting a
tile into the empty manager and forgetting an absent key both keep cache
and index in step. -/
theorem c7_cache_index_coupled_witness :
    cacheIndexCoupled (TileManager.keepTile emptyTM c7t) ∧
    cacheIndexCoupled (TileManager.forgetTile emptyTM "a") := by
  have hc : cacheIndexCoupled emptyTM := by
    intro q
    simp [emptyTM, lookupT]
  have hwf : WFtiles emptyTM := by
    intro k t h
    simp [emptyTM, lookupT] at h
  have h := c7_cache_index_coupled emptyTM hc hwf
  exact ⟨h.1 c7t, h.2.1 "a"⟩

/-- C9 counterexample: a worker build error does NOT evict in the
claimed sense — at this concrete state, with a built tile (holding a
mesh) cached under "k", buildTileError releases no external tile
resources (nothing is destroyed) and requests no redraw; the source
calls forgetTile, not removeTile. -/
theorem c9_build_error_cex :
    lookupT c9s.tiles "k" = some c9t ∧
    (TileManager.buildTileError c9s c9r).destroyed = [] ∧
    (TileManager.buildTileError c9s c9r).redraws = 0 := by decide

/-- C9 amended: on a worker build error the tile is unconditionally
forgotten — removed from the cache and from the index, with its build
tracking cleared — and the build-side resources of the result are
released (abort); but the eviction neither destroys the external
resources of the tile nor requests a redraw. -/
theorem c9_build_error_amended (s : TMState) (r : Tile)
    (hc : cacheIndexCoupled s) (hwf : WFtiles s) :
    lookupT (TileManager.buildTileError s r).tiles r.key = none ∧
    r.key ∉ (TileManager.buildTileError s r).pyramid ∧
    (TileManager.buildTileError s r).aborted = s.aborted ++ [(r.key, r.id)] ∧
    trackerCleared (TileManager.buildTileError s r) r.key = true ∧
    (TileManager.buildTileError s r).redraws = s.redraws ∧
    (TileManager.buildTileError s r).destroyed = s.destroyed := by
  refine ⟨?_, ?_, ?_, ?_, ?_, ?_⟩
  · show lookupT (TileManager.forgetTile s r.key).tiles r.key = none
    rw [(forgetTile_frame s r.key).1, lookupT_eraseKey, if_pos rfl]
  · show r.key ∉ (TileManager.forgetTile s r.key).pyramid
    unfold TileManager.forgetTile
    cases hl : lookupT s.tiles r.key with
    | none =>
      dsimp only
      rw [(tileBuildStop_frame _ _).2.1]
      intro hm
      have hk := (hc r.key).mpr hm
      rw [hl] at hk
      simp at hk
    | some tile =>
      dsimp only
      rw [(tileBuildStop_frame _ _).2.1, hwf r.key tile hl]
      simp
  · show (TileManager.forgetTile s r.key).aborted ++ [(r.key, r.id)]
        = s.aborted ++ [(r.key, r.id)]
    rw [(forgetTile_frame s r.key).2.1]
  · show trackerCleared (TileManager.forgetTile s r.key) r.key = true
    exact trackerCleared_forgetTile s r.key
  · exact (forgetTile_frame s r.key).2.2.1
  · exact (forgetTile_frame s r.key).2.2.2

/-- C9 witness: the amended eviction at the concrete errored state —
the key leaves the cache and no redraw is requested. -/
theorem c9_build_error_amended_witness :
    lookupT (TileManager.buildTileError c9s c9r).tiles "k" = none ∧
    (TileManager.buildTileError c9s c9r).redraws = c9s.redraws := by
  have hc : cacheIndexCoupled c9s := by
    intro q
    by_cases hq : q = "k" <;> simp [c9s, emptyTM, lookupT, hq]
  have hwf : WFtiles c9s := by
    intro k t h
    simp only [c9s, emptyTM] at h
    rw [show lookupT [("k", c9t)] k = if k = "k" then some c9t else none from rfl] at h
    by_cases hk : k = "k"
    · rw [if_pos hk] at h
      injection h with h
      rw [← h, hk]
      decide
    · rw [if_neg hk] at h
      cases h
  have h := c9_build_error_amended c9s c9r hc hwf
  exact ⟨h.1, h.2.2.2.2.1⟩

/-- C2: a build completion whose key is still cached but whose
generation differs from the current scene generation is discarded: if
the tile is still cached afterwards, its whole build view — in
particular the built flag and the meshes — is unchanged: the result was
not merged, the tile was not marked built and no meshes were rebuilt.
(The reconciliation pass that runs on every delivery recomputes only the
view-driven `visible` and `proxy_for` fields, which the build view
normalizes away.) -/
theorem c2_generation_guard (s : TMState) (r : Tile) (p : Bool) (c : Tile)
    (hc : lookupT s.tiles r.key = some c)
    (hg : r.generation ≠ s.scene.generation) :
    ∀ t2, lookupT (TileManager.buildTileStylesCompleted s r p).tiles r.key = some t2 →
      t2.buildView = c.buildView ∧ t2.built = c.built ∧ t2.meshes = c.meshes := by
  intro t2 h2
  unfold TileManager.buildTileStylesCompleted at h2
  rw [hc, if_neg (by simp : ¬((some c : Option Tile) = none)), if_pos hg] at h2
  have h3 : lookupT ((TileManager.updateTileStates (TileManager.abortBuild s r)).1).tiles
      r.key = some t2 := by
    cases p with
    | false => exact h2
    | true =>
      rw [if_pos (rfl : true = true), (tileBuildStop_frame _ _).1] at h2
      exact h2
  have hbv := updateTileStates_buildView (TileManager.abortBuild s r) r.key c hc t2 h3
  refine ⟨hbv, ?_, ?_⟩
  · have hb := congrArg Tile.built hbv
    simpa [Tile.buildView] using hb
  · have hm := congrArg Tile.meshes hbv
    simpa [Tile.buildView] using hm

/-- C2 witness: the generation guard at a concrete state — a stale
result (generation 99 against scene generation 1) leaves the cached
tile with its build view, built flag and meshes untouched. -/
theorem c2_generation_guard_witness :
    (lookupT (TileManager.buildTileStylesCompleted c2s c2r true).tiles "k").map
        Tile.buildView = some c2cached.buildView := by
  cases hl : lookupT (TileManager.buildTileStylesCompleted c2s c2r true).tiles "k" with
  | none => exact absurd hl (by decide)
  | some t2 =>
    have h := c2_generation_guard c2s c2r true c2cached (by decide) (by decide) t2 hl
    simp [h.1]

/-- C8: across two consecutive updateLabels calls (with no intervening
state change — the second call runs on the state the first one
returned, whose fingerprint inputs are identical), at most one collision
task is scheduled: if the first call scheduled one, the second call
finds the recorded fingerprint unchanged and schedules nothing. -/
theorem c8_collision_memoized (s : TMState)
    (h : (TileManager.updateLabels s).2 = true) :
    (TileManager.updateLabels (TileManager.updateLabels s).1).2 = false := by
  by_cases g1 : TileManager.labelSkipGuard s = true
  · unfold TileManager.updateLabels at h
    rw [if_pos g1] at h
    simp at h
  · by_cases g2 : TileManager.labelTiles s = []
    · unfold TileManager.updateLabels at h
      rw [if_neg g1, if_pos g2] at h
      simp at h
    · by_cases g3 : (s.collision.zoom
            = some (TileManager.roundPrecision s.view.zoom s.collision.zoom_steps) ∧
          s.collision.tile_keys = some ((TileManager.labelTiles s).map (fun t => t.key)) ∧
          s.collision.mesh_set = some (TileManager.meshSetSig (TileManager.labelTiles s)))
      · unfold TileManager.updateLabels at h
        rw [if_neg g1, if_neg g2, if_pos g3] at h
        simp at h
      · by_cases g4 : s.collision.task = false
        · have hEq : TileManager.updateLabels s
              = (TileManager.scheduleCollision s (TileManager.labelTiles s), true) := by
            unfold TileManager.updateLabels
            rw [if_neg g1, if_neg g2, if_neg g3, if_pos g4]
          rw [hEq]
          have g1b : ¬(TileManager.labelSkipGuard
              (TileManager.scheduleCollision s (TileManager.labelTiles s)) = true) := g1
          have g2b : ¬(TileManager.labelTiles
              (TileManager.scheduleCollision s (TileManager.labelTiles s)) = []) := g2
          have g3b : (TileManager.scheduleCollision s (TileManager.labelTiles s)).collision.zoom
                = some (TileManager.roundPrecision
                    (TileManager.scheduleCollision s (TileManager.labelTiles s)).view.zoom
                    (TileManager.scheduleCollision s
                      (TileManager.labelTiles s)).collision.zoom_steps) ∧
              (TileManager.scheduleCollision s (TileManager.labelTiles s)).collision.tile_keys
                = some ((TileManager.labelTiles
                    (TileManager.scheduleCollision s (TileManager.labelTiles s))).map
                      (fun t => t.key)) ∧
              (TileManager.scheduleCollision s (TileManager.labelTiles s)).collision.mesh_set
                = some (TileManager.meshSetSig (TileManager.labelTiles
                    (TileManager.scheduleCollision s (TileManager.labelTiles s)))) :=
            ⟨rfl, rfl, rfl⟩
          unfold TileManager.updateLabels
          rw [if_neg g1b, if_neg g2b, if_pos g3b]
        · unfold TileManager.updateLabels at h
          rw [if_neg g1, if_neg g2, if_neg g3, if_neg g4] at h
          simp at h

/-- C8 witness: at a concrete state with one renderable built tile and
fresh collision bookkeeping, the first call schedules a task and the
second call, with the fingerprint unchanged, schedules none. -/
theorem c8_collision_memoized_witness :
    (TileManager.updateLabels c8s).2 = true ∧
    (TileManager.updateLabels (TileManager.updateLabels c8s).1).2 = false :=
  ⟨by decide, c8_collision_memoized c8s (by decide)⟩

/-- Inserting with two comparators that agree on the element and the
list produces the same list. -/
theorem orderedInsert_congr {α : Type _} (r r2 : α → α → Prop)
    [DecidableRel r] [DecidableRel r2] (a : α) (l : List α)
    (h : ∀ b ∈ l, (r a b ↔ r2 a b)) :
    l.orderedInsert r a = l.orderedInsert r2 a := by
  induction l with
  | nil => rfl
  | cons b tl ih =>
    simp only [List.orderedInsert]
    by_cases hr : r a b
    · rw [if_pos hr, if_pos ((h b (by simp)).mp hr)]
    · rw [if_neg hr, if_neg (fun h2 => hr ((h b (by simp)).mpr h2)),
        ih (fun c hc => h c (by simp [hc]))]

/-- Sorting with two comparators that agree on all pairs of the list
produces the same list. -/
theorem insertionSort_congr {α : Type _} (r r2 : α → α → Prop)
    [DecidableRel r] [DecidableRel r2] (l : List α)
    (h : ∀ a ∈ l, ∀ b ∈ l, (r a b ↔ r2 a b)) :
    l.insertionSort r = l.insertionSort r2 := by
  induction l with
  | nil => rfl
  | cons a tl ih =>
    simp only [List.insertionSort]
    rw [ih (fun x hx y hy => h x (by simp [hx]) y (by simp [hy]))]
    exact orderedInsert_congr r r2 a (tl.insertionSort r2)
      (fun b hb => h a (by simp) b (by simp [(List.mem_insertionSort r2).mp hb]))

/-- On two coordinates at the same zoom, the source comparator (which
takes the half span of both tile centers at the zoom of its first
argument) coincides with ordering by each tile's own center
distance. -/
theorem queueLe_eq_dist (center : ℚ × ℚ) (a b : Coord) (hz : a.z = b.z) :
    TileManager.queueLe center a b ↔
      TileManager.tileCenterDist center a ≤ TileManager.tileCenterDist center b := by
  unfold TileManager.queueLe TileManager.tileCenterDist
  rw [hz]

/-- C6: when the queued coordinates share one zoom (as they do in the
source, where the queue is filled from the visible coordinates of a
single view update), the dispatch order of loadQueuedCoordinates is a
permutation of the queue — every queued coordinate is dispatched exactly
once, none dropped — in which any coordinate with a strictly smaller
Manhattan world-metric distance from the view center to its tile center
comes strictly earlier; afterwards the queue is empty. -/
theorem c6_priority_order (s : TMState) (z0 : Nat)
    (hz : ∀ c ∈ s.queued_coords, c.z = z0) :
    (TileManager.sortedQueue s).Perm s.queued_coords ∧
    (∀ (i j : ℕ) (hi : i < (TileManager.sortedQueue s).length)
        (hj : j < (TileManager.sortedQueue s).length),
      TileManager.tileCenterDist s.view.center_meters
          ((TileManager.sortedQueue s).get ⟨i, hi⟩) <
        TileManager.tileCenterDist s.view.center_meters
          ((TileManager.sortedQueue s).get ⟨j, hj⟩) →
      i < j) ∧
    (TileManager.loadQueuedCoordinates s).queued_coords = [] := by
  have hag : ∀ a ∈ s.queued_coords, ∀ b ∈ s.queued_coords,
      (TileManager.queueLe s.view.center_meters a b ↔
        TileManager.distLe s.view.center_meters a b) :=
    fun a ha b hb => queueLe_eq_dist _ a b ((hz a ha).trans (hz b hb).symm)
  have hEq : TileManager.sortedQueue s
      = s.queued_coords.insertionSort (TileManager.distLe s.view.center_meters) :=
    insertionSort_congr _ _ _ hag
  refine ⟨List.perm_insertionSort _ _, ?_, ?_⟩
  · have hsorted : (s.queued_coords.insertionSort
        (TileManager.distLe s.view.center_meters)).Sorted
        (TileManager.distLe s.view.center_meters) := by
      haveI : IsTotal Coord (TileManager.distLe s.view.center_meters) :=
        ⟨fun a b => le_total _ _⟩
      haveI : IsTrans Coord (TileManager.distLe s.view.center_meters) :=
        ⟨fun a b c h1 h2 => le_trans h1 h2⟩
      exact List.sorted_insertionSort _ _
    have hsorted2 : (TileManager.sortedQueue s).Sorted
        (TileManager.distLe s.view.center_meters) := by
      rw [hEq]
      exact hsorted
    intro i j hi hj hlt
    by_contra hij
    push_neg at hij
    rcases eq_or_lt_of_le hij with he | hlt2
    · subst he
      exact lt_irrefl _ hlt
    · have hrel := hsorted2.rel_get_of_lt
        (a := ⟨j, hj⟩) (b := ⟨i, hi⟩) (Fin.mk_lt_mk.mpr hlt2)
      exact absurd (lt_of_le_of_lt hrel hlt) (lt_irrefl _)
  · unfold TileManager.loadQueuedCoordinates
    by_cases he : s.queued_coords.isEmpty = true
    · rw [if_pos he]
      simpa using he
    · rw [if_neg he]

/-- C6 witness: the spec scenario — with (z=10,x=100,y=100) and
(z=10,x=5,y=3) queued, all queued coordinates are dispatched (the
dispatch order is a permutation of the queue) and the queue empties. -/
theorem c6_priority_order_witness :
    (TileManager.sortedQueue c6s).Perm c6s.queued_coords ∧
    (TileManager.loadQueuedCoordinates c6s).queued_coords = [] := by
  have h := c6_priority_order c6s 10 (by decide)
  exact ⟨h.1, h.2.2⟩
